import Mathlib

/-! AWS credential resolution and session construction

A shallow embedding of `eventsources/common/aws/aws.go`.

* Go pointers that may be nil are `Option`.
* A Go `(value, error)` return of the functions of the file is an `Except GoError value`;
  the two lookup collaborators keep their Go pair shape (`(string, bool)` and
  `(string, error)`), because the code only inspects the second component.
* `session.Must` panics: a call that may panic returns a `Panics`.
* The lookups a call performs are recorded, in order, in a list of `Lookup`.
* The SDK constructor `session.NewSession` and the two lookup collaborators
  `common.GetEnvFromSecret` and `common.GetSecretFromVolume` are parameters.
-/

namespace AwsSession

/-- The Kubernetes `corev1.SecretKeySelector`: the name of the secret, the key inside it and
the `Optional` flag. -/
structure SecretKeySelector where
  Name : String
  Key : String
  Optional : Option Bool
  deriving DecidableEq, Repr

/-- Go `error` values the file produces or forwards: `errors.Errorf` with the format string and
the locator printed by its `%v`, `errors.Wrap` of a cause with a message, and an error made
elsewhere (a collaborator or the SDK). -/
inductive GoError where
  | errorf (format : String) (arg : Option SecretKeySelector)
  | wrap (cause : GoError) (message : String)
  | other (text : String)
  deriving DecidableEq, Repr

/-- The SDK `credentials.Value`; fields left out of a Go struct literal are the empty string. -/
structure Value where
  AccessKeyID : String := ""
  SecretAccessKey : String := ""
  SessionToken : String := ""
  ProviderName : String := ""
  deriving DecidableEq, Repr

/-- The SDK `credentials.Credentials`, by the provider it was built around: a static provider
holding a `Value`, or the role-assumption provider of `stscreds.NewCredentials`, built on a base
session for a role. -/
inductive Credentials (S : Type) where
  | static (v : Value)
  | assumeRole (base : S) (roleARN : String)
  deriving DecidableEq, Repr

/-- The two fields of the SDK `aws.Config` the file sets; an unset field is nil. -/
structure Config (S : Type) where
  Region : Option String := none
  Credentials : Option (Credentials S) := none
  deriving DecidableEq, Repr

/-- The result of a call that may panic: it returns a value or aborts with the panic value. -/
inductive Panics (α : Type) where
  | value (a : α)
  | panic (v : GoError)
  deriving DecidableEq, Repr

/-- One call of a lookup collaborator, with the locator it was given. -/
inductive Lookup where
  | env (sel : Option SecretKeySelector)
  | volume (sel : Option SecretKeySelector)
  deriving DecidableEq, Repr

/-- The SDK `credentials.NewStaticCredentialsFromCreds`. -/
def NewStaticCredentialsFromCreds {S : Type} (creds : Value) : Credentials S :=
  Credentials.static creds

/-- The SDK `stscreds.NewCredentials(sess, roleARN)`. -/
def NewCredentials {S : Type} (sess : S) (roleARN : String) : Credentials S :=
  Credentials.assumeRole sess roleARN

/-- The SDK `session.Must`: panics with the error when there is one. -/
def Must {S : Type} (r : Except GoError S) : Panics S :=
  match r with
  | .error err => .panic err
  | .ok sess => .value sess

/-- `GetAWSCredFromEnvironment`: the credential read through the environment lookup, with the
lookups performed. -/
def GetAWSCredFromEnvironment {S : Type}
    (getEnvFromSecret : Option SecretKeySelector → String × Bool)
    (access secret : Option SecretKeySelector) :
    Except GoError (Credentials S) × List Lookup :=
  match getEnvFromSecret access with
  | (accessKey, ok) =>
    if !ok then
      (.error (.errorf "can not find envFrom %v" access), [.env access])
    else
      match getEnvFromSecret secret with
      | (secretKey, ok) =>
        if !ok then
          (.error (.errorf "can not find envFrom %v" secret), [.env access, .env secret])
        else
          (.ok (NewStaticCredentialsFromCreds
                  { AccessKeyID := accessKey, SecretAccessKey := secretKey }),
           [.env access, .env secret])

/-- `GetAWSCredFromVolume`: the credential read from the mounted secret volume, with the
lookups performed. -/
def GetAWSCredFromVolume {S : Type}
    (getSecretFromVolume : Option SecretKeySelector → String × Option GoError)
    (access secret sessionToken : Option SecretKeySelector) :
    Except GoError (Credentials S) × List Lookup :=
  match getSecretFromVolume access with
  | (_, some err) => (.error (.wrap err "can not find access key"), [.volume access])
  | (accessKey, none) =>
    match getSecretFromVolume secret with
    | (_, some err) =>
      (.error (.wrap err "can not find secret key"), [.volume access, .volume secret])
    | (secretKey, none) =>
      match sessionToken with
      | some sel =>
        match getSecretFromVolume (some sel) with
        | (_, some err) =>
          (.error (.wrap err "can not find session token"),
           [.volume access, .volume secret, .volume (some sel)])
        | (token, none) =>
          (.ok (NewStaticCredentialsFromCreds
                  { AccessKeyID := accessKey, SecretAccessKey := secretKey,
                    SessionToken := token }),
           [.volume access, .volume secret, .volume (some sel)])
      | none =>
        (.ok (NewStaticCredentialsFromCreds
                { AccessKeyID := accessKey, SecretAccessKey := secretKey,
                  SessionToken := "" }),
         [.volume access, .volume secret])

/-- `GetAWSSession`: a session from a config with the region and the credentials. -/
def GetAWSSession {S : Type} (newSession : List (Config S) → Except GoError S)
    (creds : Option (Credentials S)) (region : String) : Except GoError S :=
  newSession [{ Region := some region, Credentials := creds }]

/-- `GetAWSSessionWithoutCreds`: a session from a config with the region only. -/
def GetAWSSessionWithoutCreds {S : Type} (newSession : List (Config S) → Except GoError S)
    (region : String) : Except GoError S :=
  newSession [{ Region := some region }]

/-- `GetAWSAssumeRoleCreds`: the base session through `session.Must`, the role-assumption
credentials on it, then `GetAWSSession`. -/
def GetAWSAssumeRoleCreds {S : Type} (newSession : List (Config S) → Except GoError S)
    (roleARN region : String) : Panics (Except GoError S) :=
  match Must (newSession []) with
  | .panic v => .panic v
  | .value sess =>
    let creds := NewCredentials sess roleARN
    .value (GetAWSSession newSession (some creds) region)

/-- `CreateAWSSessionWithCredsInEnv`, with the lookups performed. -/
def CreateAWSSessionWithCredsInEnv {S : Type}
    (newSession : List (Config S) → Except GoError S)
    (getEnvFromSecret : Option SecretKeySelector → String × Bool)
    (region roleARN : String) (accessKey secretKey : Option SecretKeySelector) :
    Panics (Except GoError S) × List Lookup :=
  if roleARN != "" then
    (GetAWSAssumeRoleCreds newSession roleARN region, [])
  else if accessKey == none && secretKey == none then
    (.value (GetAWSSessionWithoutCreds newSession region), [])
  else
    match GetAWSCredFromEnvironment getEnvFromSecret accessKey secretKey with
    | (.error err, t) => (.value (.error err), t)
    | (.ok creds, t) => (.value (GetAWSSession newSession (some creds) region), t)

/-- `CreateAWSSessionWithCredsInVolume`, with the lookups performed. -/
def CreateAWSSessionWithCredsInVolume {S : Type}
    (newSession : List (Config S) → Except GoError S)
    (getSecretFromVolume : Option SecretKeySelector → String × Option GoError)
    (region roleARN : String) (accessKey secretKey sessionToken : Option SecretKeySelector) :
    Panics (Except GoError S) × List Lookup :=
  if roleARN != "" then
    (GetAWSAssumeRoleCreds newSession roleARN region, [])
  else if accessKey == none && secretKey == none then
    (.value (GetAWSSessionWithoutCreds newSession region), [])
  else
    match GetAWSCredFromVolume getSecretFromVolume accessKey secretKey sessionToken with
    | (.error err, t) => (.value (.error err), t)
    | (.ok creds, t) => (.value (GetAWSSession newSession (some creds) region), t)

/-- Modelled from the spec: `common.GetSecretFromVolume`, the volume read collaborator
`lookupVolumeSecret(locator) -> (value, err)`, is not among the sources. A nil locator cannot be
resolved and fails with `nilErr`; any other locator is read from the mounted volume by
`readFile`. -/
def GetSecretFromVolume (nilErr : GoError)
    (readFile : SecretKeySelector → String × Option GoError) :
    Option SecretKeySelector → String × Option GoError
  | none => ("", some nilErr)
  | some sel => readFile sel

/-! ### Concrete collaborators for the examples -/

/-- A session constructor that always succeeds; the session it returns is the region of the
first config it is given (nil without one). -/
def regionSession : List (Config (Option String)) → Except GoError (Option String)
  | [] => .ok none
  | c :: _ => .ok c.Region

/-- A session constructor whose default session (no config) fails, as when the shared
configuration cannot be loaded, and that succeeds otherwise. -/
def failingBaseSession : List (Config (Option String)) → Except GoError (Option String)
  | [] => .error (.other "failed to load shared config")
  | c :: _ => .ok c.Region

/-- The locator of key `key` in the secret `aws`. -/
def locator (key : String) : SecretKeySelector :=
  { Name := "aws", Key := key, Optional := none }

/-- An environment lookup that finds `ACCESS` and `SECRET` and nothing else. -/
def sampleEnv (sel : Option SecretKeySelector) : String × Bool :=
  if sel = some (locator "ACCESS") then ("AKIA123", true)
  else if sel = some (locator "SECRET") then ("s3cr3t", true)
  else ("", false)

/-- A volume read that succeeds on `ACCESS`, `SECRET` and `TOKEN` and fails otherwise. -/
def sampleVolume (sel : Option SecretKeySelector) : String × Option GoError :=
  if sel = some (locator "ACCESS") then ("AKIA123", none)
  else if sel = some (locator "SECRET") then ("s3cr3t", none)
  else if sel = some (locator "TOKEN") then ("t0k3n", none)
  else ("", some (.other "no such file"))

/-- An environment lookup that reports every locator found, with an empty value. -/
def emptyEnv (_ : Option SecretKeySelector) : String × Bool := ("", true)

/-- A mounted volume that holds no file at all. -/
def emptyVolume (_ : SecretKeySelector) : String × Option GoError :=
  ("", some (.other "no such file"))

/-- A mounted volume that holds a file for every locator. -/
def fullVolume (_ : SecretKeySelector) : String × Option GoError := ("v", none)

end AwsSession

namespace AwsSession

/-! ### Shared lemmas -/

theorem bne_empty_of_ne {roleARN : String} (h : roleARN ≠ "") : (roleARN != "") = true := by
  simp [bne, h]

theorem not_both_nil {a b : Option SecretKeySelector} (h : ¬ (a = none ∧ b = none)) :
    (a == none && b == none) = false := by
  cases a <;> cases b <;> simp_all

/-- The environment resolver, by the components of the two lookup results. -/
theorem GetAWSCredFromEnvironment_eq {S : Type}
    (getEnvFromSecret : Option SecretKeySelector → String × Bool)
    (access secret : Option SecretKeySelector) :
    GetAWSCredFromEnvironment (S := S) getEnvFromSecret access secret
      = if (getEnvFromSecret access).2 = false then
          (.error (.errorf "can not find envFrom %v" access), [.env access])
        else if (getEnvFromSecret secret).2 = false then
          (.error (.errorf "can not find envFrom %v" secret), [.env access, .env secret])
        else
          (.ok (.static { AccessKeyID := (getEnvFromSecret access).1,
                          SecretAccessKey := (getEnvFromSecret secret).1 }),
           [.env access, .env secret]) := by
  unfold GetAWSCredFromEnvironment NewStaticCredentialsFromCreds
  generalize getEnvFromSecret access = p
  generalize getEnvFromSecret secret = q
  obtain ⟨a, oka⟩ := p
  obtain ⟨b, okb⟩ := q
  cases oka <;> cases okb <;> rfl

/-- The volume resolver, by the components of the lookup results. -/
theorem GetAWSCredFromVolume_eq {S : Type}
    (getSecretFromVolume : Option SecretKeySelector → String × Option GoError)
    (access secret sessionToken : Option SecretKeySelector) :
    GetAWSCredFromVolume (S := S) getSecretFromVolume access secret sessionToken
      = match (getSecretFromVolume access).2 with
        | some err => (.error (.wrap err "can not find access key"), [.volume access])
        | none =>
          match (getSecretFromVolume secret).2 with
          | some err =>
            (.error (.wrap err "can not find secret key"), [.volume access, .volume secret])
          | none =>
            match sessionToken with
            | none =>
              (.ok (.static { AccessKeyID := (getSecretFromVolume access).1,
                              SecretAccessKey := (getSecretFromVolume secret).1,
                              SessionToken := "" }),
               [.volume access, .volume secret])
            | some sel =>
              match (getSecretFromVolume (some sel)).2 with
              | some err =>
                (.error (.wrap err "can not find session token"),
                 [.volume access, .volume secret, .volume (some sel)])
              | none =>
                (.ok (.static { AccessKeyID := (getSecretFromVolume access).1,
                                SecretAccessKey := (getSecretFromVolume secret).1,
                                SessionToken := (getSecretFromVolume (some sel)).1 }),
                 [.volume access, .volume secret, .volume (some sel)]) := by
  unfold GetAWSCredFromVolume NewStaticCredentialsFromCreds
  cases sessionToken with
  | none =>
    generalize getSecretFromVolume access = p
    generalize getSecretFromVolume secret = q
    obtain ⟨a, ea⟩ := p
    obtain ⟨b, eb⟩ := q
    cases ea <;> cases eb <;> rfl
  | some sel =>
    dsimp only
    generalize getSecretFromVolume (some sel) = r
    generalize getSecretFromVolume access = p
    generalize getSecretFromVolume secret = q
    obtain ⟨a, ea⟩ := p
    obtain ⟨b, eb⟩ := q
    obtain ⟨c, ec⟩ := r
    cases ea <;> cases eb <;> cases ec <;> rfl

/-- A credential returned by the environment resolver is the static credential of the two
values looked up, and both lookups reported found. -/
theorem env_cred_of_ok {S : Type}
    (getEnvFromSecret : Option SecretKeySelector → String × Bool)
    (access secret : Option SecretKeySelector) (creds : Credentials S) (t : List Lookup)
    (h : GetAWSCredFromEnvironment getEnvFromSecret access secret = (.ok creds, t)) :
    creds = .static { AccessKeyID := (getEnvFromSecret access).1,
                      SecretAccessKey := (getEnvFromSecret secret).1 }
    ∧ (getEnvFromSecret access).2 = true ∧ (getEnvFromSecret secret).2 = true := by
  rw [GetAWSCredFromEnvironment_eq] at h
  by_cases ha : (getEnvFromSecret access).2 = false
  · simp [ha] at h
  · by_cases hs : (getEnvFromSecret secret).2 = false
    · simp [ha, hs] at h
    · simp [ha, hs] at h
      exact ⟨h.1.symm, by simpa using ha, by simpa using hs⟩

/-- A credential returned by the volume resolver is a static credential whose access key and
secret key are the two values read, and both reads reported no error. -/
theorem vol_cred_of_ok {S : Type}
    (getSecretFromVolume : Option SecretKeySelector → String × Option GoError)
    (access secret sessionToken : Option SecretKeySelector) (creds : Credentials S)
    (t : List Lookup)
    (h : GetAWSCredFromVolume getSecretFromVolume access secret sessionToken = (.ok creds, t)) :
    (∃ v, creds = .static v ∧ v.AccessKeyID = (getSecretFromVolume access).1
        ∧ v.SecretAccessKey = (getSecretFromVolume secret).1)
    ∧ (getSecretFromVolume access).2 = none ∧ (getSecretFromVolume secret).2 = none := by
  rw [GetAWSCredFromVolume_eq] at h
  cases ha : (getSecretFromVolume access).2 with
  | some e => simp [ha] at h
  | none =>
    cases hs : (getSecretFromVolume secret).2 with
    | some e => simp [ha, hs] at h
    | none =>
      refine ⟨?_, rfl, rfl⟩
      cases sessionToken with
      | none =>
        simp [ha, hs] at h
        exact ⟨_, h.1.symm, rfl, rfl⟩
      | some sel =>
        cases hk : (getSecretFromVolume (some sel)).2 with
        | some e => simp [ha, hs, hk] at h
        | none =>
          simp [ha, hs, hk] at h
          exact ⟨_, h.1.symm, rfl, rfl⟩

/-! ### Precedence of the orchestrators -/

/-- C1: with a non-empty roleARN both orchestrators return exactly the result of
`GetAWSAssumeRoleCreds roleARN region`, whatever the locators (nil or not) and whatever the
lookup collaborators would answer, and they perform no lookup (the list of lookups is empty). -/
theorem role_arn_takes_precedence {S : Type}
    (newSession : List (Config S) → Except GoError S)
    (getEnvFromSecret : Option SecretKeySelector → String × Bool)
    (getSecretFromVolume : Option SecretKeySelector → String × Option GoError)
    (region roleARN : String) (accessKey secretKey sessionToken : Option SecretKeySelector)
    (h : roleARN ≠ "") :
    CreateAWSSessionWithCredsInEnv newSession getEnvFromSecret region roleARN accessKey secretKey
        = (GetAWSAssumeRoleCreds newSession roleARN region, [])
    ∧ CreateAWSSessionWithCredsInVolume newSession getSecretFromVolume region roleARN
        accessKey secretKey sessionToken
        = (GetAWSAssumeRoleCreds newSession roleARN region, []) := by
  have hb := bne_empty_of_ne h
  constructor
  · simp only [CreateAWSSessionWithCredsInEnv, hb, if_true]
  · simp only [CreateAWSSessionWithCredsInVolume, hb, if_true]

/-- Witness for C1: role `arn:aws:iam::123:role/x` in `us-east-1` with all locators supplied. -/
theorem role_arn_takes_precedence_witness :
    "arn:aws:iam::123:role/x" ≠ ""
    ∧ CreateAWSSessionWithCredsInEnv regionSession sampleEnv "us-east-1"
        "arn:aws:iam::123:role/x" (some (locator "ACCESS")) (some (locator "SECRET"))
        = (GetAWSAssumeRoleCreds regionSession "arn:aws:iam::123:role/x" "us-east-1", [])
    ∧ CreateAWSSessionWithCredsInVolume regionSession sampleVolume "us-east-1"
        "arn:aws:iam::123:role/x" (some (locator "ACCESS")) (some (locator "SECRET"))
        (some (locator "TOKEN"))
        = (GetAWSAssumeRoleCreds regionSession "arn:aws:iam::123:role/x" "us-east-1", []) :=
  ⟨by decide,
   role_arn_takes_precedence regionSession sampleEnv sampleVolume "us-east-1"
     "arn:aws:iam::123:role/x" (some (locator "ACCESS")) (some (locator "SECRET"))
     (some (locator "TOKEN")) (by decide)⟩

/-- C2: with an empty roleARN and nil access and secret locators both orchestrators return
`GetAWSSessionWithoutCreds region`, which is the SDK session built from a config holding the
region and no credentials; the volume orchestrator does so for every session-token locator; no
lookup is performed. -/
theorem no_locators_gives_session_without_creds {S : Type}
    (newSession : List (Config S) → Except GoError S)
    (getEnvFromSecret : Option SecretKeySelector → String × Bool)
    (getSecretFromVolume : Option SecretKeySelector → String × Option GoError)
    (region : String) (sessionToken : Option SecretKeySelector) :
    CreateAWSSessionWithCredsInEnv newSession getEnvFromSecret region "" none none
        = (.value (GetAWSSessionWithoutCreds newSession region), [])
    ∧ CreateAWSSessionWithCredsInVolume newSession getSecretFromVolume region "" none none
        sessionToken
        = (.value (GetAWSSessionWithoutCreds newSession region), [])
    ∧ GetAWSSessionWithoutCreds newSession region
        = newSession [{ Region := some region, Credentials := none }] := by
  refine ⟨?_, ?_, rfl⟩
  · simp [CreateAWSSessionWithCredsInEnv]
  · simp [CreateAWSSessionWithCredsInVolume]

/-- C3: with an empty roleARN and locators that are not both nil, each orchestrator runs its
resolver: when the resolver fails the orchestrator returns that very error and no session, when
it succeeds the orchestrator returns `GetAWSSession` of the resolved credentials and the region,
that is the SDK session of the config holding that region and those credentials. The lookups are
those of the resolver. -/
theorem orchestrator_follows_resolver {S : Type}
    (newSession : List (Config S) → Except GoError S)
    (getEnvFromSecret : Option SecretKeySelector → String × Bool)
    (getSecretFromVolume : Option SecretKeySelector → String × Option GoError)
    (region : String) (accessKey secretKey sessionToken : Option SecretKeySelector)
    (h : ¬ (accessKey = none ∧ secretKey = none)) :
    (∀ err t,
        GetAWSCredFromEnvironment (S := S) getEnvFromSecret accessKey secretKey
          = (.error err, t) →
        CreateAWSSessionWithCredsInEnv newSession getEnvFromSecret region "" accessKey secretKey
          = (.value (.error err), t))
    ∧ (∀ creds t,
        GetAWSCredFromEnvironment getEnvFromSecret accessKey secretKey = (.ok creds, t) →
        CreateAWSSessionWithCredsInEnv newSession getEnvFromSecret region "" accessKey secretKey
          = (.value (GetAWSSession newSession (some creds) region), t)
        ∧ GetAWSSession newSession (some creds) region
          = newSession [{ Region := some region, Credentials := some creds }]
        ∧ ∃ v, creds = Credentials.static v)
    ∧ (∀ err t,
        GetAWSCredFromVolume (S := S) getSecretFromVolume accessKey secretKey sessionToken
          = (.error err, t) →
        CreateAWSSessionWithCredsInVolume newSession getSecretFromVolume region "" accessKey
          secretKey sessionToken = (.value (.error err), t))
    ∧ (∀ creds t,
        GetAWSCredFromVolume getSecretFromVolume accessKey secretKey sessionToken
          = (.ok creds, t) →
        CreateAWSSessionWithCredsInVolume newSession getSecretFromVolume region "" accessKey
          secretKey sessionToken = (.value (GetAWSSession newSession (some creds) region), t)
        ∧ GetAWSSession newSession (some creds) region
          = newSession [{ Region := some region, Credentials := some creds }]
        ∧ ∃ v, creds = Credentials.static v) := by
  have hb := not_both_nil h
  refine ⟨?_, ?_, ?_, ?_⟩
  · intro err t he
    simp [CreateAWSSessionWithCredsInEnv, hb, he]
  · intro creds t he
    exact ⟨by simp [CreateAWSSessionWithCredsInEnv, hb, he], rfl, _,
      (env_cred_of_ok getEnvFromSecret accessKey secretKey creds t he).1⟩
  · intro err t he
    simp [CreateAWSSessionWithCredsInVolume, hb, he]
  · intro creds t he
    obtain ⟨⟨v, hv, _⟩, _⟩ :=
      vol_cred_of_ok getSecretFromVolume accessKey secretKey sessionToken creds t he
    exact ⟨by simp [CreateAWSSessionWithCredsInVolume, hb, he], rfl, v, hv⟩

/-- Witness for C3: the access locator `ACCESS` resolves and the secret locator `MISSING` does
not; each resolver fails on the secret and the orchestrator returns that error. -/
theorem orchestrator_follows_resolver_witness :
    ¬ (some (locator "ACCESS") = none ∧ some (locator "MISSING") = none)
    ∧ CreateAWSSessionWithCredsInEnv regionSession sampleEnv "us-east-1" ""
        (some (locator "ACCESS")) (some (locator "MISSING"))
        = (.value (.error (.errorf "can not find envFrom %v" (some (locator "MISSING")))),
           [.env (some (locator "ACCESS")), .env (some (locator "MISSING"))])
    ∧ CreateAWSSessionWithCredsInVolume regionSession sampleVolume "us-east-1" ""
        (some (locator "ACCESS")) (some (locator "MISSING")) none
        = (.value (.error (.wrap (.other "no such file") "can not find secret key")),
           [.volume (some (locator "ACCESS")), .volume (some (locator "MISSING"))]) :=
  ⟨by decide,
   (orchestrator_follows_resolver regionSession sampleEnv sampleVolume "us-east-1"
      (some (locator "ACCESS")) (some (locator "MISSING")) none (by decide)).1 _ _ rfl,
   (orchestrator_follows_resolver regionSession sampleEnv sampleVolume "us-east-1"
      (some (locator "ACCESS")) (some (locator "MISSING")) none (by decide)).2.2.1 _ _ rfl⟩

/-! ### The two resolvers on success -/

/-- C4: when the environment lookups of the access and of the secret locator both report found,
`GetAWSCredFromEnvironment` returns no error and the static credential whose AccessKeyID and
SecretAccessKey are the two values looked up and whose SessionToken is empty. -/
theorem env_cred_of_found {S : Type}
    (getEnvFromSecret : Option SecretKeySelector → String × Bool)
    (access secret : Option SecretKeySelector) (accessKey secretKey : String)
    (ha : getEnvFromSecret access = (accessKey, true))
    (hs : getEnvFromSecret secret = (secretKey, true)) :
    (GetAWSCredFromEnvironment (S := S) getEnvFromSecret access secret).1
      = .ok (.static { AccessKeyID := accessKey, SecretAccessKey := secretKey,
                       SessionToken := "", ProviderName := "" }) := by
  rw [GetAWSCredFromEnvironment_eq]
  simp [ha, hs]

/-- Witness for C4: `ACCESS` is `AKIA123` and `SECRET` is `s3cr3t`. -/
theorem env_cred_of_found_witness :
    sampleEnv (some (locator "ACCESS")) = ("AKIA123", true)
    ∧ sampleEnv (some (locator "SECRET")) = ("s3cr3t", true)
    ∧ (GetAWSCredFromEnvironment (S := Option String) sampleEnv (some (locator "ACCESS"))
        (some (locator "SECRET"))).1
      = .ok (.static { AccessKeyID := "AKIA123", SecretAccessKey := "s3cr3t",
                       SessionToken := "" }) :=
  ⟨rfl, rfl, env_cred_of_found sampleEnv (some (locator "ACCESS")) (some (locator "SECRET"))
      "AKIA123" "s3cr3t" rfl rfl⟩

/-- C5: when the volume reads of the access, secret and session-token locators all succeed,
`GetAWSCredFromVolume` returns no error and the static credential of the three values read;
with a nil session-token locator and successful access and secret reads it returns the
credential of those two values with an empty SessionToken, after exactly the two reads of the
access and the secret locator. -/
theorem vol_cred_of_read {S : Type}
    (getSecretFromVolume : Option SecretKeySelector → String × Option GoError)
    (access secret : Option SecretKeySelector) (accessKey secretKey : String)
    (ha : getSecretFromVolume access = (accessKey, none))
    (hs : getSecretFromVolume secret = (secretKey, none)) :
    (∀ sel token, getSecretFromVolume (some sel) = (token, none) →
        GetAWSCredFromVolume (S := S) getSecretFromVolume access secret (some sel)
          = (.ok (.static { AccessKeyID := accessKey, SecretAccessKey := secretKey,
                            SessionToken := token, ProviderName := "" }),
             [.volume access, .volume secret, .volume (some sel)]))
    ∧ GetAWSCredFromVolume (S := S) getSecretFromVolume access secret none
        = (.ok (.static { AccessKeyID := accessKey, SecretAccessKey := secretKey,
                          SessionToken := "", ProviderName := "" }),
           [.volume access, .volume secret]) := by
  constructor
  · intro sel token ht
    rw [GetAWSCredFromVolume_eq]
    simp [ha, hs, ht]
  · rw [GetAWSCredFromVolume_eq]
    simp [ha, hs]

/-- Witness for C5: `ACCESS`, `SECRET` and `TOKEN` are all readable. -/
theorem vol_cred_of_read_witness :
    sampleVolume (some (locator "ACCESS")) = ("AKIA123", none)
    ∧ sampleVolume (some (locator "SECRET")) = ("s3cr3t", none)
    ∧ GetAWSCredFromVolume (S := Option String) sampleVolume (some (locator "ACCESS"))
        (some (locator "SECRET")) (some (locator "TOKEN"))
        = (.ok (.static { AccessKeyID := "AKIA123", SecretAccessKey := "s3cr3t",
                          SessionToken := "t0k3n" }),
           [.volume (some (locator "ACCESS")), .volume (some (locator "SECRET")),
            .volume (some (locator "TOKEN"))])
    ∧ GetAWSCredFromVolume (S := Option String) sampleVolume (some (locator "ACCESS"))
        (some (locator "SECRET")) none
        = (.ok (.static { AccessKeyID := "AKIA123", SecretAccessKey := "s3cr3t" }),
           [.volume (some (locator "ACCESS")), .volume (some (locator "SECRET"))]) :=
  ⟨rfl, rfl,
   (vol_cred_of_read sampleVolume (some (locator "ACCESS")) (some (locator "SECRET"))
      "AKIA123" "s3cr3t" rfl rfl).1 (locator "TOKEN") "t0k3n" rfl,
   (vol_cred_of_read sampleVolume (some (locator "ACCESS")) (some (locator "SECRET"))
      "AKIA123" "s3cr3t" rfl rfl).2⟩

/-! ### The two resolvers on failure -/

/-- C6: `GetAWSCredFromVolume` fails exactly when the read of the access locator fails, or the
read of the secret locator fails, or the session-token locator is not nil and its read fails.
The error wraps the read error of the first failing field, in the order access, secret, session
token, with the message `can not find access key`, `can not find secret key` or
`can not find session token`; the result is then an error and holds no credential. -/
theorem vol_cred_fails_iff {S : Type}
    (getSecretFromVolume : Option SecretKeySelector → String × Option GoError)
    (access secret sessionToken : Option SecretKeySelector) :
    ((∃ err, (GetAWSCredFromVolume (S := S) getSecretFromVolume access secret sessionToken).1
          = .error err)
      ↔ ((getSecretFromVolume access).2 ≠ none ∨ (getSecretFromVolume secret).2 ≠ none
          ∨ (sessionToken ≠ none ∧ (getSecretFromVolume sessionToken).2 ≠ none)))
    ∧ (∀ e, (getSecretFromVolume access).2 = some e →
        (GetAWSCredFromVolume (S := S) getSecretFromVolume access secret sessionToken).1
          = .error (.wrap e "can not find access key"))
    ∧ (∀ e, (getSecretFromVolume access).2 = none → (getSecretFromVolume secret).2 = some e →
        (GetAWSCredFromVolume (S := S) getSecretFromVolume access secret sessionToken).1
          = .error (.wrap e "can not find secret key"))
    ∧ (∀ e, (getSecretFromVolume access).2 = none → (getSecretFromVolume secret).2 = none →
        sessionToken ≠ none → (getSecretFromVolume sessionToken).2 = some e →
        (GetAWSCredFromVolume (S := S) getSecretFromVolume access secret sessionToken).1
          = .error (.wrap e "can not find session token")) := by
  rw [GetAWSCredFromVolume_eq]
  cases ha : (getSecretFromVolume access).2 with
  | some ea => simp
  | none =>
    cases hs : (getSecretFromVolume secret).2 with
    | some es => simp
    | none =>
      cases sessionToken with
      | none => simp
      | some sel =>
        cases hk : (getSecretFromVolume (some sel)).2 with
        | some ek => simp [hk]
        | none => simp [hk]

/-- Witness for C6: the access and secret reads succeed and the read of the session-token
locator `MISSING` fails. -/
theorem vol_cred_fails_iff_witness :
    (sampleVolume (some (locator "ACCESS"))).2 = none
    ∧ (sampleVolume (some (locator "SECRET"))).2 = none
    ∧ (sampleVolume (some (locator "MISSING"))).2 = some (.other "no such file")
    ∧ (GetAWSCredFromVolume (S := Option String) sampleVolume (some (locator "ACCESS"))
        (some (locator "SECRET")) (some (locator "MISSING"))).1
      = .error (.wrap (.other "no such file") "can not find session token") :=
  ⟨rfl, rfl, rfl,
   (vol_cred_fails_iff sampleVolume (some (locator "ACCESS")) (some (locator "SECRET"))
      (some (locator "MISSING"))).2.2.2 (.other "no such file") rfl rfl (by decide) rfl⟩

/-- C7: `GetAWSCredFromEnvironment` fails exactly when at least one of the two lookups reports
not found. The access lookup is checked first: when it reports not found the error names the
access locator and the secret locator is not looked up; when it reports found and the secret
lookup reports not found the error names the secret locator; and the error of the secret check,
the one returned after both lookups, is returned only in that second case. The result is then
an error and holds no credential. -/
theorem env_cred_fails_iff {S : Type}
    (getEnvFromSecret : Option SecretKeySelector → String × Bool)
    (access secret : Option SecretKeySelector) :
    ((∃ err, (GetAWSCredFromEnvironment (S := S) getEnvFromSecret access secret).1 = .error err)
      ↔ ((getEnvFromSecret access).2 = false ∨ (getEnvFromSecret secret).2 = false))
    ∧ ((getEnvFromSecret access).2 = false →
        GetAWSCredFromEnvironment (S := S) getEnvFromSecret access secret
          = (.error (.errorf "can not find envFrom %v" access), [.env access]))
    ∧ ((getEnvFromSecret access).2 = true → (getEnvFromSecret secret).2 = false →
        GetAWSCredFromEnvironment (S := S) getEnvFromSecret access secret
          = (.error (.errorf "can not find envFrom %v" secret), [.env access, .env secret]))
    ∧ (GetAWSCredFromEnvironment (S := S) getEnvFromSecret access secret
          = (.error (.errorf "can not find envFrom %v" secret), [.env access, .env secret]) →
        (getEnvFromSecret access).2 = true ∧ (getEnvFromSecret secret).2 = false) := by
  rw [GetAWSCredFromEnvironment_eq]
  cases ha : (getEnvFromSecret access).2 <;> cases hs : (getEnvFromSecret secret).2 <;> simp

/-- Witness for C7: `ACCESS` is found and `MISSING` is not. -/
theorem env_cred_fails_iff_witness :
    (sampleEnv (some (locator "ACCESS"))).2 = true
    ∧ (sampleEnv (some (locator "MISSING"))).2 = false
    ∧ GetAWSCredFromEnvironment (S := Option String) sampleEnv (some (locator "ACCESS"))
        (some (locator "MISSING"))
      = (.error (.errorf "can not find envFrom %v" (some (locator "MISSING"))),
         [.env (some (locator "ACCESS")), .env (some (locator "MISSING"))]) :=
  ⟨rfl, rfl,
   (env_cred_fails_iff sampleEnv (some (locator "ACCESS")) (some (locator "MISSING"))).2.2.1
     rfl rfl⟩

/-! ### Exactly one mandatory locator -/

/-- C8, as stated, fails: the access locator is supplied but its file is missing from the
volume and the secret locator is nil. The volume orchestrator returns the
`can not find access key` error of the supplied access locator, after one read, and not an
error for the missing secret field. -/
theorem one_nil_volume_error_names_access :
    (some (locator "ACCESS") ≠ none ∧ (none : Option SecretKeySelector) = none)
    ∧ CreateAWSSessionWithCredsInVolume regionSession
        (GetSecretFromVolume (.other "nil secret selector") emptyVolume) "us-east-1" ""
        (some (locator "ACCESS")) none none
      = (.value (.error (.wrap (.other "no such file") "can not find access key")),
         [.volume (some (locator "ACCESS"))])
    ∧ ¬ ∃ e, (CreateAWSSessionWithCredsInVolume regionSession
        (GetSecretFromVolume (.other "nil secret selector") emptyVolume) "us-east-1" ""
        (some (locator "ACCESS")) none none).1
      = .value (.error (.wrap e "can not find secret key")) := by
  refine ⟨⟨by decide, rfl⟩, rfl, ?_⟩
  rintro ⟨e, he⟩
  have h2 : CreateAWSSessionWithCredsInVolume regionSession
        (GetSecretFromVolume (.other "nil secret selector") emptyVolume) "us-east-1" ""
        (some (locator "ACCESS")) none none
      = (.value (.error (.wrap (.other "no such file") "can not find access key")),
         [.volume (some (locator "ACCESS"))]) := rfl
  rw [h2] at he
  simp at he

/-- C8, amended: with an empty roleARN and exactly one of the access and secret locators nil,
the volume orchestrator, over a volume read that fails on a nil locator, returns an error and no
session. The error is a wrapped read error: the one of the missing field when the access locator
is the nil one (after a single read) or when the supplied access locator reads successfully, and
the `can not find access key` error of the supplied access locator when its own read fails. The
environment orchestrator, when the secret locator is the nil one and the lookup of the supplied
access locator reports not found, returns the not-found error of the access locator after that
single lookup, the nil locator never being looked up. Nothing is stated about an environment
lookup of a nil locator. -/
theorem one_nil_locator_fails {S : Type}
    (newSession : List (Config S) → Except GoError S)
    (getEnvFromSecret : Option SecretKeySelector → String × Bool) (nilErr : GoError)
    (readFile : SecretKeySelector → String × Option GoError)
    (region : String) (accessKey secretKey sessionToken : Option SecretKeySelector)
    (h : (accessKey = none ∧ secretKey ≠ none) ∨ (accessKey ≠ none ∧ secretKey = none)) :
    (∃ e msg, (CreateAWSSessionWithCredsInVolume newSession
        (GetSecretFromVolume nilErr readFile) region "" accessKey secretKey sessionToken).1
          = .value (.error (.wrap e msg)))
    ∧ (accessKey = none →
        CreateAWSSessionWithCredsInVolume newSession (GetSecretFromVolume nilErr readFile)
          region "" accessKey secretKey sessionToken
          = (.value (.error (.wrap nilErr "can not find access key")), [.volume none]))
    ∧ (secretKey = none → (GetSecretFromVolume nilErr readFile accessKey).2 = none →
        CreateAWSSessionWithCredsInVolume newSession (GetSecretFromVolume nilErr readFile)
          region "" accessKey secretKey sessionToken
          = (.value (.error (.wrap nilErr "can not find secret key")),
             [.volume accessKey, .volume none]))
    ∧ (∀ e, secretKey = none → (GetSecretFromVolume nilErr readFile accessKey).2 = some e →
        CreateAWSSessionWithCredsInVolume newSession (GetSecretFromVolume nilErr readFile)
          region "" accessKey secretKey sessionToken
          = (.value (.error (.wrap e "can not find access key")), [.volume accessKey]))
    ∧ (secretKey = none → (getEnvFromSecret accessKey).2 = false →
        CreateAWSSessionWithCredsInEnv newSession getEnvFromSecret region "" accessKey secretKey
          = (.value (.error (.errorf "can not find envFrom %v" accessKey)),
             [.env accessKey])) := by
  have hb : (accessKey == none && secretKey == none) = false :=
    not_both_nil (by rcases h with ⟨h1, h2⟩ | ⟨h1, h2⟩ <;> simp [h1, h2])
  simp only [CreateAWSSessionWithCredsInEnv, CreateAWSSessionWithCredsInVolume, hb,
    GetAWSCredFromEnvironment_eq, GetAWSCredFromVolume_eq]
  rcases h with ⟨h1, h2⟩ | ⟨h1, h2⟩
  · subst h1
    simp [GetSecretFromVolume, h2]
  · subst h2
    obtain ⟨sel, rfl⟩ := Option.ne_none_iff_exists'.mp h1
    refine ⟨?_, ?_, ?_, ?_, ?_⟩
    · cases hr : (readFile sel).2 <;> simp [GetSecretFromVolume, hr]
    · simp
    · intro _ hr
      simp only [GetSecretFromVolume] at hr
      simp [GetSecretFromVolume, hr]
    · intro e _ hr
      simp only [GetSecretFromVolume] at hr
      simp [GetSecretFromVolume, hr]
    · intro _ he
      simp [he]

/-- Witness for C8: only the access locator `KEY` is supplied; its file is readable and it is
not set in the environment. -/
theorem one_nil_locator_fails_witness :
    ((some (locator "KEY") = none ∧ (none : Option SecretKeySelector) ≠ none)
      ∨ (some (locator "KEY") ≠ none ∧ (none : Option SecretKeySelector) = none))
    ∧ (GetSecretFromVolume (.other "nil secret selector") fullVolume
        (some (locator "KEY"))).2 = none
    ∧ (sampleEnv (some (locator "KEY"))).2 = false
    ∧ CreateAWSSessionWithCredsInVolume regionSession
        (GetSecretFromVolume (.other "nil secret selector") fullVolume) "us-east-1" ""
        (some (locator "KEY")) none none
      = (.value (.error (.wrap (.other "nil secret selector") "can not find secret key")),
         [.volume (some (locator "KEY")), .volume none])
    ∧ CreateAWSSessionWithCredsInEnv regionSession sampleEnv "us-east-1" ""
        (some (locator "KEY")) none
      = (.value (.error (.errorf "can not find envFrom %v" (some (locator "KEY")))),
         [.env (some (locator "KEY"))]) :=
  ⟨by decide, rfl, rfl,
   (one_nil_locator_fails regionSession sampleEnv (.other "nil secret selector")
      fullVolume "us-east-1" (some (locator "KEY")) none none (by decide)).2.2.1 rfl rfl,
   (one_nil_locator_fails regionSession sampleEnv (.other "nil secret selector")
      fullVolume "us-east-1" (some (locator "KEY")) none none (by decide)).2.2.2.2 rfl rfl⟩

/-! ### Non-empty keys -/

/-- C9, as stated, fails: an environment lookup that reports found with an empty value gives a
credential, returned without error, whose AccessKeyID and SecretAccessKey are empty. -/
theorem env_cred_with_empty_keys :
    (GetAWSCredFromEnvironment (S := Option String) emptyEnv (some (locator "ACCESS"))
        (some (locator "SECRET"))).1
      = .ok (.static { AccessKeyID := "", SecretAccessKey := "", SessionToken := "",
                       ProviderName := "" }) := rfl

/-- C9, amended: a credential returned without error by either resolver is a static credential
whose AccessKeyID and SecretAccessKey are the values the lookups reported for the access and
the secret locator; so both are non-empty whenever every lookup that reports found (or a
successful read) reports a non-empty value. -/
theorem cred_keys_nonempty_of_lookups_nonempty {S : Type}
    (getEnvFromSecret : Option SecretKeySelector → String × Bool)
    (getSecretFromVolume : Option SecretKeySelector → String × Option GoError)
    (access secret sessionToken : Option SecretKeySelector)
    (henv : ∀ sel, (getEnvFromSecret sel).2 = true → (getEnvFromSecret sel).1 ≠ "")
    (hvol : ∀ sel, (getSecretFromVolume sel).2 = none → (getSecretFromVolume sel).1 ≠ "") :
    (∀ (creds : Credentials S) t,
        GetAWSCredFromEnvironment getEnvFromSecret access secret = (.ok creds, t) →
        ∃ v, creds = .static v ∧ v.AccessKeyID = (getEnvFromSecret access).1
          ∧ v.SecretAccessKey = (getEnvFromSecret secret).1
          ∧ v.AccessKeyID ≠ "" ∧ v.SecretAccessKey ≠ "")
    ∧ (∀ (creds : Credentials S) t,
        GetAWSCredFromVolume getSecretFromVolume access secret sessionToken = (.ok creds, t) →
        ∃ v, creds = .static v ∧ v.AccessKeyID = (getSecretFromVolume access).1
          ∧ v.SecretAccessKey = (getSecretFromVolume secret).1
          ∧ v.AccessKeyID ≠ "" ∧ v.SecretAccessKey ≠ "") := by
  constructor
  · intro creds t h
    obtain ⟨hc, ha, hs⟩ := env_cred_of_ok getEnvFromSecret access secret creds t h
    exact ⟨_, hc, rfl, rfl, henv access ha, henv secret hs⟩
  · intro creds t h
    obtain ⟨⟨v, hc, hva, hvs⟩, ha, hs⟩ :=
      vol_cred_of_ok getSecretFromVolume access secret sessionToken creds t h
    exact ⟨v, hc, hva, hvs, hva ▸ hvol access ha, hvs ▸ hvol secret hs⟩

/-- Witness for C9: the sample environment and volume report only non-empty values. -/
theorem cred_keys_nonempty_of_lookups_nonempty_witness :
    (∀ sel, (sampleEnv sel).2 = true → (sampleEnv sel).1 ≠ "")
    ∧ (∀ sel, (sampleVolume sel).2 = none → (sampleVolume sel).1 ≠ "")
    ∧ ∃ v, (Credentials.static { AccessKeyID := "AKIA123", SecretAccessKey := "s3cr3t" }
              : Credentials (Option String)) = .static v
        ∧ v.AccessKeyID = (sampleEnv (some (locator "ACCESS"))).1
        ∧ v.SecretAccessKey = (sampleEnv (some (locator "SECRET"))).1
        ∧ v.AccessKeyID ≠ "" ∧ v.SecretAccessKey ≠ "" :=
  have henv : ∀ sel, (sampleEnv sel).2 = true → (sampleEnv sel).1 ≠ "" := by
    intro sel h
    unfold sampleEnv at h ⊢
    split_ifs at h ⊢ <;> simp_all
  have hvol : ∀ sel, (sampleVolume sel).2 = none → (sampleVolume sel).1 ≠ "" := by
    intro sel h
    unfold sampleVolume at h ⊢
    split_ifs at h ⊢ <;> simp_all
  ⟨henv, hvol,
   (cred_keys_nonempty_of_lookups_nonempty sampleEnv sampleVolume (some (locator "ACCESS"))
      (some (locator "SECRET")) none henv hvol).1 _
      [.env (some (locator "ACCESS")), .env (some (locator "SECRET"))] rfl⟩

/-! ### The assumed-role session -/

/-- C10, as stated, fails: when the construction of the default session fails,
`GetAWSAssumeRoleCreds` does not return an error value; `session.Must` panics with the error. -/
theorem assume_role_panics_when_base_session_fails :
    GetAWSAssumeRoleCreds failingBaseSession "arn:aws:iam::123:role/x" "us-east-1"
      = .panic (.other "failed to load shared config") := rfl

/-- C10, amended: when the construction of the default session succeeds,
`GetAWSAssumeRoleCreds` returns the result of the SDK construction from the config holding the
given region and the role-assumption credentials for roleARN on that base session, so a failure
of this construction is the returned error and a success is a session bound to that region and
provider; when the construction of the default session fails, the call panics with that
error. -/
theorem assume_role_creds_result {S : Type}
    (newSession : List (Config S) → Except GoError S) (roleARN region : String) :
    (∀ base, newSession [] = .ok base →
        GetAWSAssumeRoleCreds newSession roleARN region
          = .value (newSession [{ Region := some region,
                                  Credentials := some (.assumeRole base roleARN) }]))
    ∧ (∀ err, newSession [] = .error err →
        GetAWSAssumeRoleCreds newSession roleARN region = .panic err) := by
  constructor
  · intro base hb
    simp [GetAWSAssumeRoleCreds, Must, hb, GetAWSSession, NewCredentials]
  · intro err he
    simp [GetAWSAssumeRoleCreds, Must, he]

/-- Witness for C10: the default session is built, and the session returned is bound to
`us-east-1`. -/
theorem assume_role_creds_result_witness :
    regionSession [] = .ok none
    ∧ GetAWSAssumeRoleCreds regionSession "arn:aws:iam::123:role/x" "us-east-1"
      = .value (.ok (some "us-east-1")) :=
  ⟨rfl, (assume_role_creds_result regionSession "arn:aws:iam::123:role/x" "us-east-1").1
      none rfl⟩

end AwsSession
